import Mathlib

/-!
# Verification of the AoC-2024 leaderboard pipeline

Shallow embedding of the repository sources `src/scraper.py`,
`src/data_processing.py` and `src/app_visualization.py`.

The embedding keeps the Python names where Lean allows it.  Python
`DataFrame`s of participant rows are modelled as lists of `Record`
(one `Record` per `ParticipantRecord` row), together with an explicit
column list where a function inspects `df.columns`.  Machine floats
(`points`, means, rates) are modelled as `Rat`; `None`/`NaN` outcomes
are modelled as `Option`; raised exceptions as `Except`/`Option`.

All definitions are structural recursions, so every concrete instance
evaluates by `decide`/`rfl` in the kernel.  Core `String` functions
that are defined by well-founded recursion (`String.splitOn`,
`String.trim`, ...) are therefore re-implemented here over `s.data`.
-/

/-! ## String helpers (kernel-reducible models of the Python string ops) -/

/-- Digits of a decimal literal to a number (no validation; callers check
`Char.isDigit` first).  Models the digit accumulation of Python `int`. -/
def natOfDigits (l : List Char) : Nat :=
  l.foldl (fun acc c => acc * 10 + (c.toNat - 48)) 0

/-- Python `int(s)` on an already-stripped string: optional sign, then
decimal digits; anything else raises `ValueError`, modelled as `none`. -/
def strToInt? (s : String) : Option Int :=
  let core (l : List Char) : Option Nat :=
    if l.isEmpty then none
    else if l.all Char.isDigit then some (natOfDigits l) else none
  match s.data with
  | '-' :: rest => (core rest).map (fun n => -(n : Int))
  | '+' :: rest => (core rest).map (fun n => (n : Int))
  | l => (core l).map (fun n => (n : Int))

/-- Split a character list on a single separator character (auxiliary). -/
def splitCharAux (sep : Char) : List Char → List Char → List (List Char)
  | [], acc => [acc.reverse]
  | c :: rest, acc =>
      if c = sep then acc.reverse :: splitCharAux sep rest []
      else splitCharAux sep rest (c :: acc)

/-- Python `float(s)` on an already-stripped string, restricted to plain
decimal literals `[+-]digits[.digits]` (the only shape occurring in the
scraped points cells; exponent/`inf`/`nan` forms are not modelled). -/
def strToRat? (s : String) : Option Rat :=
  let core (l : List Char) : Option Rat :=
    let parts := splitCharAux '.' l []
    match parts with
    | [a] =>
        if a ≠ [] ∧ a.all Char.isDigit then some ((natOfDigits a : Nat) : Rat) else none
    | [a, b] =>
        if (a ≠ [] ∨ b ≠ []) ∧ a.all Char.isDigit ∧ b.all Char.isDigit then
          some (((natOfDigits a : Nat) : Rat) + ((natOfDigits b : Nat) : Rat) / (10 : Rat) ^ b.length)
        else none
    | _ => none
  match s.data with
  | '-' :: rest => (core rest).map (fun q => -q)
  | '+' :: rest => (core rest).map (fun q => q)
  | l => core l

/-- Python `str.strip()` (whitespace trim at both ends). -/
def strTrim (s : String) : String :=
  ⟨((s.data.dropWhile Char.isWhitespace).reverse.dropWhile Char.isWhitespace).reverse⟩

/-- Python `s.split(sep)` for a one-character separator. -/
def splitChar (sep : Char) (s : String) : List String :=
  (splitCharAux sep s.data []).map (fun l => ⟨l⟩)

/-- Python lexicographic `<` on strings (code-point order), as Bool. -/
def charListLt : List Char → List Char → Bool
  | [], [] => false
  | [], _ :: _ => true
  | _ :: _, [] => false
  | a :: as, b :: bs =>
      if a.val < b.val then true
      else if b.val < a.val then false
      else charListLt as bs

/-- Python `max(list_of_strings)` (first element on an empty list is
never taken: the source guards emptiness before calling `max`). -/
def maxString : List String → String
  | [] => ""
  | x :: xs => xs.foldl (fun a b => if charListLt a.data b.data then b else a) x

/-- `s.startswith(p)` / glob-pattern anchored head. -/
def strStartsWith (s p : String) : Bool := p.data.isPrefixOf s.data

/-- `s.endswith(p)` / glob-pattern anchored tail. -/
def strEndsWith (s p : String) : Bool := p.data.reverse.isPrefixOf s.data.reverse

/-! ## Data model: one leaderboard row -/

/-- One `<td>` cell of a leaderboard table row: its text and the number
of `<span class='star1'>` (gold) and `<span class='star0'>` (silver)
markers it contains (`src/scraper.py` lines 41-45). -/
structure Cell where
  text : String
  star1Count : Nat
  star0Count : Nat
deriving DecidableEq, Repr

/-- A `ParticipantRecord`: the dict built by `AOCScraper._process_row`
(`src/scraper.py` lines 22-66).  `days` holds `day_1 .. day_n` in order;
`streak` is `int(...)`, `points` is `float(...)`. -/
structure Record where
  login : String
  campus : String
  streak : Int
  points : Rat
  days : List Nat
  completed_days : Nat
  gold_stars : Nat
  silver_stars : Nat
  total_stars : Nat
deriving DecidableEq, Repr

/-- State threaded by the star loop of `_process_row`. -/
structure StarAcc where
  days : List Nat
  cd : Nat
  gold : Nat
  silver : Nat
deriving DecidableEq, Repr

/-- The day-by-day star loop of `_process_row` (`src/scraper.py` lines
36-60): per cell, count gold/silver markers, cap each tier at 2,
accumulate the capped counts, update `completed_days` when the day has
any star, and record the day value `min(day_gold + day_silver, 2)`. -/
def processStars : List Cell → Nat → Nat → Nat → Nat → StarAcc
  | [], _, cd, gold, silver => ⟨[], cd, gold, silver⟩
  | c :: rest, dayNum, cd, gold, silver =>
      let day_gold := min c.star1Count 2
      let day_silver := min c.star0Count 2
      let gold' := gold + day_gold
      let silver' := silver + day_silver
      let cd' := if 0 < day_gold + day_silver ∧ cd < dayNum then dayNum else cd
      let r := processStars rest (dayNum + 1) cd' gold' silver'
      ⟨min (day_gold + day_silver) 2 :: r.days, r.cd, r.gold, r.silver⟩

/-- `AOCScraper._process_row` (`src/scraper.py` lines 15-72): a row with
fewer than 5 cells, or whose streak/points text fails to parse, yields
`None` (the `except` handler); otherwise the participant dict. -/
def processRow (cells : List Cell) : Option Record :=
  if cells.length < 5 then none
  else
    match cells with
    | c0 :: c1 :: c2 :: c3 :: starCells =>
        match strToInt? (strTrim c2.text), strToRat? (strTrim c3.text) with
        | some streakVal, some pointsVal =>
            let r := processStars starCells 1 0 0 0
            some { login := strTrim c0.text
                   campus := strTrim c1.text
                   streak := streakVal
                   points := pointsVal
                   days := r.days
                   completed_days := r.cd
                   gold_stars := r.gold
                   silver_stars := r.silver
                   total_stars := r.gold + r.silver }
        | _, _ => none
    | _ => none

/-! ## Table Scraper (`AOCScraper.scrape_data`, `_convert_numeric_columns`) -/

/-- Points-descending order used by `df.sort_values('points', ascending=False)`. -/
def pointsDesc (a b : Record) : Prop := b.points ≤ a.points

instance : DecidableRel pointsDesc := fun a b =>
  inferInstanceAs (Decidable (b.points ≤ a.points))

instance : IsTotal Record pointsDesc := ⟨fun a b => le_total b.points a.points⟩

instance : IsTrans Record pointsDesc := ⟨fun _ _ _ hab hbc => le_trans hbc hab⟩

/-- `df.sort_values('points', ascending=False).reset_index(drop=True)`:
produce a permutation of the rows sorted by `points` descending (pandas
uses an unstable quicksort; only "sorted permutation" is specified). -/
def sortValuesPointsDesc (rs : List Record) : List Record :=
  List.insertionSort pointsDesc rs

/-- `AOCScraper._convert_numeric_columns` (`src/scraper.py` lines 74-88)
acting on a frame built from `_process_row` dicts: all fields are
already numeric of the right type, so `pd.to_numeric(...).fillna(0)`
plus `astype(int)` only materialises the `NaN`s that `pd.DataFrame`
introduced for rows with fewer day columns than the widest row, filling
them with 0.  Modelled as padding every `days` vector with zeros up to
the frame-wide maximum day count. -/
def convertNumericColumns (rs : List Record) : List Record :=
  let m := rs.foldl (fun acc r => max acc r.days.length) 0
  rs.map (fun r => { r with days := r.days ++ List.replicate (m - r.days.length) 0 })

/-- The environment of one `scrape_data` call: whether the HTTP GET
succeeded (2xx and no network error), whether the parsed HTML contains
`table#rankingTable` and its `tbody`, and the table rows. -/
structure Page where
  fetchOk : Bool
  hasTable : Bool
  hasTbody : Bool
  rows : List (List Cell)
deriving DecidableEq, Repr

/-- `AOCScraper.scrape_data` (`src/scraper.py` lines 90-125): every
failure (fetch error, missing table/tbody, zero valid rows, any raised
exception) is collapsed to an empty frame `[]`; otherwise the valid
rows, numerically coerced and sorted by points descending. -/
def scrape_data (p : Page) : List Record :=
  if !p.fetchOk then []
  else if !p.hasTable then []
  else if !p.hasTbody then []
  else if (p.rows.filterMap processRow).isEmpty then []
  else sortValuesPointsDesc (convertNumericColumns (p.rows.filterMap processRow))

/-! ## Snapshot Store (`get_latest_csv`, `load_backup_data`, `clean_old_files`) -/

/-- Does a basename match the glob `aoc_rankings_*.csv` used by
`glob.glob(os.path.join('./data', 'aoc_rankings_*.csv'))`? -/
def matchesSnapshotGlob (name : String) : Bool :=
  strStartsWith name "aoc_rankings_" && strEndsWith name ".csv"

/-- `os.path.join('./data', name)`. -/
def joinData (name : String) : String := "./data/" ++ name

/-- `os.path.basename`: the component after the last `/`. -/
def basename (p : String) : String := (splitChar '/' p).getLastD ""

/-- The `./data` directory: each entry is a basename together with the
result of `pd.read_csv` on that file (`none` models a read/parse error). -/
structure DataDir where
  entries : List (String × Option (List Record))
deriving Repr

/-- The glob call shared by `get_latest_csv` and `clean_old_files`:
full paths of the snapshot files currently in `./data`. -/
def globSnapshots (d : DataDir) : List String :=
  ((d.entries.map Prod.fst).filter matchesSnapshotGlob).map joinData

/-- A `datetime.datetime` as produced by `datetime.strptime`. -/
structure PyDateTime where
  year : Nat
  month : Nat
  day : Nat
  hour : Nat
  minute : Nat
  second : Nat
deriving DecidableEq, Repr

/-- `datetime.strptime(s, '%Y%m%d%H%M%S')`: 14 digits with in-range
month/day/hour/minute/second, else `ValueError` (`none`).  (Per-month
day counts and leap years are not modelled; immaterial here, since the
inputs that matter are either well-formed timestamps or non-digits.) -/
def strptime14 (s : String) : Option PyDateTime :=
  let l := s.data
  if l.length = 14 ∧ l.all Char.isDigit then
    let y := natOfDigits (l.take 4)
    let mo := natOfDigits ((l.drop 4).take 2)
    let d := natOfDigits ((l.drop 6).take 2)
    let h := natOfDigits ((l.drop 8).take 2)
    let mi := natOfDigits ((l.drop 10).take 2)
    let se := natOfDigits ((l.drop 12).take 2)
    if 1 ≤ mo ∧ mo ≤ 12 ∧ 1 ≤ d ∧ d ≤ 31 ∧ h ≤ 23 ∧ mi ≤ 59 ∧ se ≤ 59 then
      some ⟨y, mo, d, h, mi, se⟩
    else none
  else none

/-- Python list indexing `l[i]` for non-negative `i`, `none` modelling
the `IndexError` on an out-of-range index. -/
def pyIndex {α : Type} : List α → Nat → Option α
  | [], _ => none
  | x :: _, 0 => some x
  | _ :: xs, n + 1 => pyIndex xs n

/-- Lines 69-70 of `src/data_processing.py`:
`timestamp_str = os.path.basename(latest_file).split('_')[1].split('.')[0]`
then `datetime.strptime(timestamp_str, '%Y%m%d%H%M%S')`.  A failure of
any step (an out-of-range index raising `IndexError`, or `strptime`
raising `ValueError`) is caught by the surrounding `except`, so all
failures are collapsed to `none`. -/
def timestampFromName (name : String) : Option PyDateTime := do
  let part ← pyIndex (splitChar '_' name) 1
  let ts ← pyIndex (splitChar '.' part) 0
  strptime14 ts

/-- `get_latest_csv` (`src/data_processing.py` lines 52-77): glob the
snapshot files, return `('', None)` if there are none; otherwise take
the lexicographically greatest path, extract the timestamp text from
its basename and parse it; any exception yields `('', None)`. -/
def get_latest_csv (d : DataDir) : String × Option PyDateTime :=
  if (globSnapshots d).isEmpty then ("", none)
  else
    match timestampFromName (basename (maxString (globSnapshots d))) with
    | some t => (maxString (globSnapshots d), some t)
    | none => ("", none)

/-- `load_backup_data` (`src/data_processing.py` lines 79-92): `None`
when `get_latest_csv` produced no path, otherwise the `pd.read_csv`
result, with read errors collapsed to `None`. -/
def load_backup_data (d : DataDir) : Option (List Record) :=
  let filepath := (get_latest_csv d).1
  if filepath = "" then none
  else
    match d.entries.lookup (basename filepath) with
    | some (some df) => some df
    | _ => none

/-- `clean_old_files(except_file)` (`src/data_processing.py` lines
25-50): delete every globbed snapshot file whose full path differs from
`except_file` (individual deletion failures are skipped; deletions are
modelled as succeeding).  Result: the basenames remaining in `./data`. -/
def clean_old_files (names : List String) (exceptFile : String) : List String :=
  names.filter (fun n => !(matchesSnapshotGlob n && !(joinData n = exceptFile)))

/-! ## Data Loader (`load_data`, `src/data_processing.py` lines 94-140)

`AOCScraper.save_data` is called by the loader but is not among the
source files; per the specification of the Snapshot Store, `save`
serializes the dataset to `./data/aoc_rankings_<YYYYMMDDHHMMSS>.csv`
and returns that path, or signals `WriteError` on failure.  Modelled
from the spec: the environment carries the outcome of the `save_data`
call (`some name` = returns the path `./data/<name>`, `none` = raises).
The 5-minute `st.cache_data` wrapper is outside the modelled call (the
claims concern the un-cached `_load` body). -/

/-- The user-visible signals emitted through `st.warning` / `st.error`. -/
inductive UserMsg
  | staleWarning
  | noDataError
deriving DecidableEq, Repr

/-- The exception that can escape the `try` body of `_load` in the
model: a `WriteError` from the spec-modelled `save_data`. -/
inductive LoadExc
  | writeError
deriving DecidableEq, Repr

/-- Environment of one `_load()` call: the scraped page, the outcome of
the (spec-modelled) `save_data` call, the outcome that `load_backup_data`
would produce, and the basenames currently in `./data`. -/
structure LoadEnv where
  page : Page
  saveName : Option String
  backup : Option (List Record)
  dir : List String
deriving Repr

/-- Observable outcome of `_load()`: the returned frame, the path
`save_data` returned (if reached), the basenames left in `./data`, and
the structured signals surfaced to the caller. -/
structure LoadResult where
  dataset : List Record
  saved : Option String
  dirAfter : List String
  msgs : List UserMsg
deriving Repr

/-- The `try` body of `_load` (`src/data_processing.py` lines 102-124):
scrape; on an empty frame fall back to the backup (warning or error
signal); otherwise save (which may raise `WriteError`), prune old files
when the returned path is truthy, and return the frame sorted by points
descending. -/
def loadBody (env : LoadEnv) : Except LoadExc LoadResult :=
  if (scrape_data env.page).isEmpty then
    match env.backup with
    | some b =>
        .ok { dataset := sortValuesPointsDesc b, saved := none
              dirAfter := env.dir, msgs := [.staleWarning] }
    | none =>
        .ok { dataset := [], saved := none
              dirAfter := env.dir, msgs := [.noDataError] }
  else
    match env.saveName with
    | none => .error .writeError
    | some name =>
        .ok { dataset := sortValuesPointsDesc (scrape_data env.page)
              saved := some (joinData name)
              dirAfter :=
                if joinData name = "" then name :: env.dir
                else clean_old_files (name :: env.dir) (joinData name)
              msgs := [] }

/-- `load_data` = the `try/except` of `_load` (`src/data_processing.py`
lines 94-140): the `except Exception` handler retries the backup and
otherwise returns an empty frame; the result is `.ok` exactly when no
exception escapes the loader boundary. -/
def load_data (env : LoadEnv) : Except LoadExc LoadResult :=
  match loadBody env with
  | .ok r => .ok r
  | .error _ =>
      match env.backup with
      | some b =>
          .ok { dataset := sortValuesPointsDesc b, saved := none
                dirAfter := env.dir, msgs := [.staleWarning] }
      | none =>
          .ok { dataset := [], saved := none
                dirAfter := env.dir, msgs := [] }

/-! ## Metrics Aggregator (`get_current_aoc_day`, `create_metrics_dataframe`) -/

/-- A dataframe together with its column labels (needed by the functions
that inspect `df.columns`).  `records` are the participant rows. -/
structure Frame where
  cols : List String
  records : List Record
deriving Repr

/-- The column labels of a frame built from `_process_row` dicts with
`n` day columns (`src/scraper.py` lines 22-66: dict key order). -/
def datasetCols (n : Nat) : List String :=
  ["login", "campus", "streak", "points"]
    ++ (List.range n).map (fun i => "day_" ++ toString (i + 1))
    ++ ["completed_days", "gold_stars", "silver_stars", "total_stars"]

/-- `get_current_aoc_day` (`src/data_processing.py` lines 143-145):
the number of columns whose label starts with `day_`. -/
def get_current_aoc_day (f : Frame) : Nat :=
  (f.cols.filter (fun c => strStartsWith c "day_")).length

/-- `CAMPUS_COLORS` (`src/data_processing.py` lines 17-22). -/
def CAMPUS_COLORS : List (String × String) :=
  [("UDZ", "#00FF00"), ("BCN", "#FFD700"), ("MAL", "#00FFFF"), ("MAD", "#FF00FF")]

/-- Pandas `Series.mean()`: `NaN` (here `none`) on an empty series. -/
def ratMean (xs : List Rat) : Option Rat :=
  if xs.length = 0 then none else some (xs.sum / (xs.length : Rat))

/-- Pandas `Series.max()`: `NaN` (here `none`) on an empty series. -/
def listMax? {α : Type} [Max α] : List α → Option α
  | [] => none
  | x :: xs => some (xs.foldl max x)

/-- `df['campus'].unique()`: distinct values in order of first appearance. -/
def uniqueFirst : List String → List String
  | [] => []
  | x :: xs => x :: (uniqueFirst xs).filter (fun y => !(y == x))

/-- `sorted(...)`: ascending lexicographic sort of the campus names. -/
def strLeProp (a b : String) : Prop := charListLt b.data a.data = false

instance : DecidableRel strLeProp := fun a b =>
  inferInstanceAs (Decidable (charListLt b.data a.data = false))

/-- `sorted(df['campus'].unique())`. -/
def sortStrings (l : List String) : List String := List.insertionSort strLeProp l

/-- One row of the metrics table built by `create_metrics_dataframe`.
The formatted strings of the source are decomposed into the numeric
quantities they render; `none` stands for a `NaN` float (mean/max of an
empty selection, or a division whose denominator is zero — numpy turns
integer-scalar division by zero into a non-finite float plus a runtime
warning, not an exception).  The emoji/HTML decoration of the section
label is presentation and carries no data beyond the campus name and
the looked-up color. -/
structure MetricsRow where
  sectionLabel : String
  students : Nat
  pointsAvg : Option Rat
  pointsMax : Option Rat
  streakAvg : Option Rat
  streakMax : Option Int
  goldSum : Nat
  silverSum : Nat
  successRate : Option Rat
deriving DecidableEq, Repr

/-- The metric fields shared verbatim by the global and the per-campus
branch of `create_metrics_dataframe` (`src/data_processing.py` lines
153-181; both branches build the same expressions over their row
selection). -/
def metricsRowFor (label : String) (rs : List Record) (maxPossibleStars : Nat) :
    MetricsRow :=
  { sectionLabel := label
    students := rs.length
    pointsAvg := ratMean (rs.map Record.points)
    pointsMax := listMax? (rs.map Record.points)
    streakAvg := ratMean (rs.map (fun r => (r.streak : Rat)))
    streakMax := listMax? (rs.map Record.streak)
    goldSum := (rs.map Record.gold_stars).sum
    silverSum := (rs.map Record.silver_stars).sum
    successRate :=
      let denom := rs.length * maxPossibleStars
      if denom = 0 then none
      else some ((((rs.map Record.total_stars).sum : Nat) : Rat) / ((denom : Nat) : Rat) * 100) }

/-- A Python `for` loop building a list of results where the body can
raise: the first raised exception aborts the loop. -/
def forExcept {α β ε : Type} (g : α → Except ε β) : List α → Except ε (List β)
  | [] => .ok []
  | x :: xs =>
      match g x with
      | .error e => .error e
      | .ok b =>
          match forExcept g xs with
          | .error e => .error e
          | .ok bs => .ok (b :: bs)

/-- `create_metrics_dataframe` (`src/data_processing.py` lines 148-182).
In the per-campus branch the section label interpolates
`CAMPUS_COLORS[campus]`: a campus absent from the table raises
`KeyError`, modelled as `.error campus`. -/
def create_metrics_dataframe (f : Frame) (is_global : Bool) :
    Except String (List MetricsRow) :=
  let current_day := get_current_aoc_day f
  let max_possible_stars := current_day * 2
  if is_global then
    .ok [metricsRowFor "Global" f.records max_possible_stars]
  else
    forExcept (fun campus =>
        match CAMPUS_COLORS.lookup campus with
        | none => .error campus
        | some _ =>
            .ok (metricsRowFor campus
                  (f.records.filter (fun r => r.campus == campus))
                  max_possible_stars))
      (sortStrings (uniqueFirst (f.records.map Record.campus)))

/-! ## Chart Builders (`plot_star_totals_by_campus`, `plot_campus_progress`) -/

/-- One `go.Scatter` trace of the daily-star-totals line chart: its
x values (the day column labels) and its series name.  (The y values
are the named column's entries; they play no part in the claims about
series identity and the x axis.) -/
structure Trace where
  x : List String
  name : String
deriving DecidableEq, Repr

/-- `plot_star_totals_by_campus` (`src/data_processing.py` lines
239-269, identical in `src/app_visualization.py` lines 41-63):
`day_columns` are the columns starting with `day_`; `campuses` are all
remaining columns; one trace per element of `campuses`, each with
`x = day_columns`. -/
def plot_star_totals_by_campus (f : Frame) : List Trace :=
  let day_columns := f.cols.filter (fun c => strStartsWith c "day_")
  let campuses := f.cols.filter (fun c => !(day_columns.contains c))
  campuses.map (fun campus => { x := day_columns, name := campus })

/-- `round(x, 2)` applied by `campus_stats.round(2)` (banker's rounding
on exact halves is not distinguished; no claim depends on it). -/
def round2 (x : Rat) : Rat := ((round (x * 100) : Int) : Rat) / 100

/-- One `go.Scatterpolar` trace of the radar chart: campus name, line
color, and the five rounded means. -/
structure RadarTrace where
  name : String
  lineColor : String
  r : List (Option Rat)
deriving DecidableEq, Repr

/-- `plot_campus_progress` (`src/data_processing.py` lines 330-369,
identical in `src/app_visualization.py` lines 116-153): one trace per
distinct campus, `line_color = CAMPUS_COLORS.get(campus, '#808080')`. -/
def plot_campus_progress (f : Frame) : List RadarTrace :=
  (uniqueFirst (f.records.map Record.campus)).map (fun campus =>
    let campus_data := f.records.filter (fun r => r.campus == campus)
    { name := campus
      lineColor := (CAMPUS_COLORS.lookup campus).getD "#808080"
      r := [(ratMean (campus_data.map Record.points)).map round2,
            (ratMean (campus_data.map (fun x => (x.streak : Rat)))).map round2,
            (ratMean (campus_data.map (fun x => (x.completed_days : Rat)))).map round2,
            (ratMean (campus_data.map (fun x => (x.gold_stars : Rat)))).map round2,
            (ratMean (campus_data.map (fun x => (x.silver_stars : Rat)))).map round2] })

/-! ## Concrete inputs used by the witnesses and the counterexample -/

/-- A valid leaderboard row: login, campus, streak `3`, points `100`,
one day cell with two gold markers. -/
def c1Row : List Cell :=
  [⟨"alice", 0, 0⟩, ⟨"BCN", 0, 0⟩, ⟨"3", 0, 0⟩, ⟨"100", 0, 0⟩, ⟨"", 2, 0⟩]

/-- A fully successful page for the loader witness. -/
def c1Page : Page := ⟨true, true, true, [c1Row]⟩

/-- Loader environment: successful scrape, successful save, one stale
snapshot and one unrelated file in `./data`. -/
def c1Env : LoadEnv :=
  { page := c1Page
    saveName := some "aoc_rankings_20250102030405.csv"
    backup := none
    dir := ["aoc_rankings_20240101000000.csv", "notes.txt"] }

/-- A participant record for the snapshot-store witness. -/
def c2Rec : Record := ⟨"bob", "MAD", 1, 10, [2], 1, 2, 0, 2⟩

/-- A `./data` directory holding one well-formed, deserializable
snapshot file. -/
def c2Dir : DataDir := ⟨[("aoc_rankings_20241201120000.csv", some [c2Rec])]⟩

/-- The degenerate frame (no rows, no columns) for the metrics guard. -/
def c3Frame : Frame := ⟨[], []⟩

/-- Two BCN records for the line-chart counterexample. -/
def c5Rec1 : Record := ⟨"ana", "BCN", 2, 20, [2], 1, 2, 0, 2⟩

def c5Rec2 : Record := ⟨"ben", "BCN", 1, 10, [1], 1, 0, 1, 1⟩

/-- A one-day dataset whose two rows share the single campus `BCN`. -/
def c5Frame : Frame := ⟨datasetCols 1, [c5Rec1, c5Rec2]⟩

/-- A row whose first day cell has 3 gold + 1 silver markers (the
malformed shape the two-stage cap is about) and whose second has 2+2. -/
def c6Row : List Cell :=
  [⟨"carl", 0, 0⟩, ⟨"MAL", 0, 0⟩, ⟨"3", 0, 0⟩, ⟨"7", 0, 0⟩, ⟨"", 3, 1⟩, ⟨"", 2, 2⟩]

/-- The record `_process_row` produces for `c6Row`: day values
`[min(2+1,2), min(2+2,2)] = [2,2]`, gold `2+2`, silver `1+2`. -/
def c6Rec : Record := ⟨"carl", "MAL", 3, 7, [2, 2], 2, 4, 3, 7⟩

/-- A row with nonzero day cells exactly at days 2, 5 and 7. -/
def c7Row : List Cell :=
  [⟨"dana", 0, 0⟩, ⟨"MAD", 0, 0⟩, ⟨"0", 0, 0⟩, ⟨"1", 0, 0⟩,
   ⟨"", 0, 0⟩, ⟨"", 1, 0⟩, ⟨"", 0, 0⟩, ⟨"", 0, 0⟩, ⟨"", 0, 1⟩, ⟨"", 0, 0⟩, ⟨"", 2, 0⟩]

/-- The record `_process_row` produces for `c7Row`. -/
def c7Rec : Record := ⟨"dana", "MAD", 0, 1, [0, 1, 0, 0, 1, 0, 2], 7, 3, 1, 4⟩

/-- A one-row page for the `total_stars` invariant witness. -/
def c8Row : List Cell :=
  [⟨"eve", 0, 0⟩, ⟨"UDZ", 0, 0⟩, ⟨"2", 0, 0⟩, ⟨"50", 0, 0⟩, ⟨"", 1, 1⟩]

def c8Page : Page := ⟨true, true, true, [c8Row]⟩

/-- The record `_process_row` produces for `c8Row`. -/
def c8Rec : Record := ⟨"eve", "UDZ", 2, 50, [2], 1, 1, 1, 2⟩

/-- Two participants, one day: `total_stars` 2 and 0. -/
def c9RecA : Record := ⟨"fay", "UDZ", 1, 30, [2], 1, 2, 0, 2⟩

def c9RecB : Record := ⟨"gil", "UDZ", 0, 0, [0], 0, 0, 0, 0⟩

def c9Frame : Frame := ⟨datasetCols 1, [c9RecA, c9RecB]⟩

/-- A record whose campus `PAR` is outside `CAMPUS_COLORS`. -/
def c10Rec : Record := ⟨"hugo", "PAR", 1, 5, [1], 1, 1, 0, 1⟩

def c10Frame : Frame := ⟨datasetCols 1, [c10Rec]⟩

/-! # Theorems -/

/-! ## Row Parser lemmas -/

/-- The day values produced by the star loop. -/
theorem processStars_days (cells : List Cell) :
    ∀ d cd g s, (processStars cells d cd g s).days =
      cells.map (fun c => min (min c.star1Count 2 + min c.star0Count 2) 2) := by
  induction cells with
  | nil => intro d cd g s; simp [processStars]
  | cons c rest ih => intro d cd g s; simp [processStars, ih]

/-- The gold accumulator sums the per-day tier-capped gold counts. -/
theorem processStars_gold (cells : List Cell) :
    ∀ d cd g s, (processStars cells d cd g s).gold =
      g + (cells.map (fun c => min c.star1Count 2)).sum := by
  induction cells with
  | nil => intro d cd g s; simp [processStars]
  | cons c rest ih => intro d cd g s; simp [processStars, ih]; ring

/-- The silver accumulator sums the per-day tier-capped silver counts. -/
theorem processStars_silver (cells : List Cell) :
    ∀ d cd g s, (processStars cells d cd g s).silver =
      s + (cells.map (fun c => min c.star0Count 2)).sum := by
  induction cells with
  | nil => intro d cd g s; simp [processStars]
  | cons c rest ih => intro d cd g s; simp [processStars, ih]; ring

/-- Characterization of the `completed_days` accumulator: provided the
running value is below the current day number (an invariant of the
loop), the final value is either unchanged (and then every produced day
value is zero from that point on) or it is the 1-based position, offset
by the starting day number, of the last day cell with a nonzero star
count. -/
theorem processStars_cd (cells : List Cell) :
    ∀ d cd g s, cd < d →
      ((processStars cells d cd g s).cd = cd ∨
        (d ≤ (processStars cells d cd g s).cd ∧
          0 < (processStars cells d cd g s).days.getD
                ((processStars cells d cd g s).cd - d) 0)) ∧
      (∀ i, (processStars cells d cd g s).cd + 1 - d ≤ i →
        (processStars cells d cd g s).days.getD i 0 = 0) := by
  induction cells with
  | nil =>
      intro d cd g s _
      refine ⟨Or.inl rfl, ?_⟩
      intro i _
      simp [processStars]
  | cons c rest ih =>
      intro d cd g s h
      simp only [processStars]
      by_cases hpos : 0 < min c.star1Count 2 + min c.star0Count 2
      · have hif : (if 0 < min c.star1Count 2 + min c.star0Count 2 ∧ cd < d
            then d else cd) = d := if_pos ⟨hpos, h⟩
        rw [hif]
        obtain ⟨ih1, ih2⟩ :=
          ih (d + 1) d (g + min c.star1Count 2) (s + min c.star0Count 2) (by omega)
        rcases ih1 with heq | ⟨hle, hp⟩
        · refine ⟨Or.inr ?_, ?_⟩
          · rw [heq]
            simpa using by omega
          · intro i hi
            match i with
            | 0 => omega
            | j + 1 =>
                rw [List.getD_cons_succ]
                exact ih2 j (by omega)
        · refine ⟨Or.inr ?_, ?_⟩
          · refine ⟨by omega, ?_⟩
            have h1 : (processStars rest (d + 1) d (g + min c.star1Count 2)
                (s + min c.star0Count 2)).cd - d =
                ((processStars rest (d + 1) d (g + min c.star1Count 2)
                  (s + min c.star0Count 2)).cd - (d + 1)) + 1 := by omega
            rw [h1, List.getD_cons_succ]
            exact hp
          · intro i hi
            match i with
            | 0 => omega
            | j + 1 =>
                rw [List.getD_cons_succ]
                exact ih2 j (by omega)
      · have hif : (if 0 < min c.star1Count 2 + min c.star0Count 2 ∧ cd < d
            then d else cd) = cd := if_neg (by tauto)
        rw [hif]
        have hdv : min (min c.star1Count 2 + min c.star0Count 2) 2 = 0 := by omega
        obtain ⟨ih1, ih2⟩ :=
          ih (d + 1) cd (g + min c.star1Count 2) (s + min c.star0Count 2) (by omega)
        rcases ih1 with heq | ⟨hle, hp⟩
        · refine ⟨Or.inl heq, ?_⟩
          intro i hi
          match i with
          | 0 => simpa using hdv
          | j + 1 =>
              rw [List.getD_cons_succ]
              exact ih2 j (by omega)
        · refine ⟨Or.inr ⟨by omega, ?_⟩, ?_⟩
          · have h1 : (processStars rest (d + 1) cd (g + min c.star1Count 2)
                (s + min c.star0Count 2)).cd - d =
                ((processStars rest (d + 1) cd (g + min c.star1Count 2)
                  (s + min c.star0Count 2)).cd - (d + 1)) + 1 := by omega
            rw [h1, List.getD_cons_succ]
            exact hp
          · intro i hi
            match i with
            | 0 => simpa using hdv
            | j + 1 =>
                rw [List.getD_cons_succ]
                exact ih2 j (by omega)

/-- Inversion of a successful `_process_row`: the star-derived fields
come from the star loop over the cells after the first four, and
`total_stars` is defined as the sum of the two accumulators. -/
theorem processRow_inv {cells : List Cell} {rec : Record}
    (h : processRow cells = some rec) :
    rec.days = (processStars (cells.drop 4) 1 0 0 0).days ∧
    rec.completed_days = (processStars (cells.drop 4) 1 0 0 0).cd ∧
    rec.gold_stars = (processStars (cells.drop 4) 1 0 0 0).gold ∧
    rec.silver_stars = (processStars (cells.drop 4) 1 0 0 0).silver ∧
    rec.total_stars = rec.gold_stars + rec.silver_stars := by
  unfold processRow at h
  split at h
  · exact absurd h (by simp)
  · split at h
    · rename_i c0 c1 c2 c3 starCells
      split at h
      · injection h with h
        subst h
        simp
      · exact absurd h (by simp)
    · exact absurd h (by simp)

/-- C6: for every row the Row Parser accepts, every day value is the
two-stage-capped `min(min(g,2) + min(s,2), 2)` of that day cell's gold
and silver marker counts, and `gold_stars`/`silver_stars` are the sums
of the per-day tier-capped counts `min(g,2)` / `min(s,2)`, not of the
raw marker counts. -/
theorem row_parser_two_stage_cap (cells : List Cell) (rec : Record)
    (h : processRow cells = some rec) :
    rec.days = (cells.drop 4).map
        (fun c => min (min c.star1Count 2 + min c.star0Count 2) 2) ∧
    rec.gold_stars = ((cells.drop 4).map (fun c => min c.star1Count 2)).sum ∧
    rec.silver_stars = ((cells.drop 4).map (fun c => min c.star0Count 2)).sum := by
  obtain ⟨hd, _, hg, hs, _⟩ := processRow_inv h
  refine ⟨?_, ?_, ?_⟩
  · rw [hd, processStars_days]
  · rw [hg, processStars_gold]
    exact (Nat.zero_add _).symm ▸ rfl
  · rw [hs, processStars_silver]
    exact (Nat.zero_add _).symm ▸ rfl

/-- Witness for C6: a row whose first day cell carries 3 gold + 1
silver markers (3 is capped to 2) and whose second carries 2 + 2. -/
theorem row_parser_two_stage_cap_witness :
    processRow c6Row = some c6Rec ∧
    (c6Rec.days = (c6Row.drop 4).map
        (fun c => min (min c.star1Count 2 + min c.star0Count 2) 2) ∧
     c6Rec.gold_stars = ((c6Row.drop 4).map (fun c => min c.star1Count 2)).sum ∧
     c6Rec.silver_stars = ((c6Row.drop 4).map (fun c => min c.star0Count 2)).sum) :=
  ⟨by decide, row_parser_two_stage_cap c6Row c6Rec (by decide)⟩

/-- C7: for every record the Row Parser produces, `completed_days` is
the highest 1-based day index with a nonzero day value (day `i + 1`
corresponds to `days.getD i 0`): if `completed_days` is positive the
day value at index `completed_days - 1` is nonzero, and every day value
at an index `≥ completed_days` is zero — in particular a zero
`completed_days` forces an all-zero day vector. -/
theorem completed_days_is_highest_nonzero_day (cells : List Cell) (rec : Record)
    (h : processRow cells = some rec) :
    (0 < rec.completed_days → 0 < rec.days.getD (rec.completed_days - 1) 0) ∧
    (∀ i, rec.completed_days ≤ i → rec.days.getD i 0 = 0) := by
  obtain ⟨hd, hcd, _, _, _⟩ := processRow_inv h
  obtain ⟨h1, h2⟩ := processStars_cd (cells.drop 4) 1 0 0 0 (by omega)
  constructor
  · intro hpos
    rcases h1 with heq | ⟨_, hp⟩
    · omega
    · rw [hd, hcd]
      simpa using hp
  · intro i hi
    rw [hd]
    exact h2 i (by omega)

/-- Witness for C7: the spec's example — nonzero day cells exactly at
days 2, 5 and 7 give `completed_days = 7`. -/
theorem completed_days_is_highest_nonzero_day_witness :
    processRow c7Row = some c7Rec ∧ c7Rec.completed_days = 7 ∧
    ((0 < c7Rec.completed_days → 0 < c7Rec.days.getD (c7Rec.completed_days - 1) 0) ∧
     (∀ i, c7Rec.completed_days ≤ i → c7Rec.days.getD i 0 = 0)) :=
  ⟨by decide, by decide,
    completed_days_is_highest_nonzero_day c7Row c7Rec (by decide)⟩

/-- C8: every record in every dataset the Table Scraper produces
satisfies `total_stars = gold_stars + silver_stars`. -/
theorem total_stars_eq_gold_plus_silver (p : Page) (r : Record)
    (h : r ∈ scrape_data p) :
    r.total_stars = r.gold_stars + r.silver_stars := by
  unfold scrape_data at h
  split at h
  · exact absurd h (by simp)
  split at h
  · exact absurd h (by simp)
  split at h
  · exact absurd h (by simp)
  split at h
  · exact absurd h (by simp)
  rw [sortValuesPointsDesc, List.mem_insertionSort] at h
  simp only [convertNumericColumns, List.mem_map] at h
  obtain ⟨r0, hr0, hec⟩ := h
  rw [List.mem_filterMap] at hr0
  obtain ⟨row, _, hrow⟩ := hr0
  obtain ⟨_, _, _, _, ht⟩ := processRow_inv hrow
  subst hec
  simpa using ht

/-- Witness for C8: the single record scraped from `c8Page`. -/
theorem total_stars_eq_gold_plus_silver_witness :
    c8Rec ∈ scrape_data c8Page ∧
    c8Rec.total_stars = c8Rec.gold_stars + c8Rec.silver_stars :=
  ⟨by decide, total_stars_eq_gold_plus_silver c8Page c8Rec (by decide)⟩

/-! ## Metrics Aggregator claims -/

/-- C3: contrary to the specified behavior, the summary computation has
no degenerate-input guard: on an empty dataset or one with zero day
columns it does not signal any `InsufficientDataError` (no such error
exists anywhere in the source) — it returns an ordinary metrics row
whose success rate is the non-finite float produced by dividing by the
zero denominator (numpy emits a runtime warning and a `NaN`/`inf`
value, modelled `none`). -/
theorem metrics_degenerate_no_guard (f : Frame)
    (h : f.records = [] ∨ get_current_aoc_day f = 0) :
    ∃ m, create_metrics_dataframe f true = .ok [m] ∧ m.successRate = none := by
  refine ⟨_, rfl, ?_⟩
  simp only [metricsRowFor]
  have hz : f.records.length * (get_current_aoc_day f * 2) = 0 := by
    rcases h with h | h
    · rw [h]; simp
    · rw [h]; simp
  rw [if_pos hz]

/-- Witness for C3: the empty frame. -/
theorem metrics_degenerate_no_guard_witness :
    (c3Frame.records = [] ∨ get_current_aoc_day c3Frame = 0) ∧
    ∃ m, create_metrics_dataframe c3Frame true = .ok [m] ∧ m.successRate = none :=
  ⟨Or.inl rfl, metrics_degenerate_no_guard c3Frame (Or.inl rfl)⟩

/-- C9: for every non-degenerate dataset, the global success rate is
`sum(total_stars) / (record_count * current_day * 2) * 100`. -/
theorem global_success_rate_formula (f : Frame)
    (h1 : f.records ≠ []) (h2 : 0 < get_current_aoc_day f) :
    ∃ m, create_metrics_dataframe f true = .ok [m] ∧
      m.successRate = some ((((f.records.map Record.total_stars).sum : Nat) : Rat) /
        ((f.records.length * (get_current_aoc_day f * 2) : Nat) : Rat) * 100) := by
  refine ⟨_, rfl, ?_⟩
  simp only [metricsRowFor]
  have hz : f.records.length * (get_current_aoc_day f * 2) ≠ 0 := by
    have hlen : 0 < f.records.length := List.length_pos.mpr h1
    have : 0 < f.records.length * (get_current_aoc_day f * 2) :=
      Nat.mul_pos hlen (by omega)
    omega
  rw [if_neg hz]

/-- Witness for C9: the spec's example — 2 participants, 1 day column,
`total_stars` 2 and 0, success rate `(2+0)/(2*1*2)*100 = 50`. -/
theorem global_success_rate_formula_witness :
    c9Frame.records ≠ [] ∧ 0 < get_current_aoc_day c9Frame ∧
    ∃ m, create_metrics_dataframe c9Frame true = .ok [m] ∧
      m.successRate = some 50 := by
  obtain ⟨m, hm, hr⟩ := global_success_rate_formula c9Frame (by decide) (by decide)
  refine ⟨by decide, by decide, m, hm, ?_⟩
  have e1 : (c9Frame.records.map Record.total_stars).sum = 2 := by decide
  have e2 : c9Frame.records.length = 2 := by decide
  have e3 : get_current_aoc_day c9Frame = 1 := by decide
  rw [hr, e1, e2, e3]
  norm_num

/-! ## Chart Builder claims -/

/-- Counterexample to C5: on a dataset frame (canonical columns, both
rows in campus `BCN`) the line-chart builder emits 8 series — one per
non-day column, including one named `login` — not one per distinct
campus value (of which there is exactly 1). -/
theorem star_totals_not_one_series_per_campus :
    (plot_star_totals_by_campus c5Frame).length ≠
      (uniqueFirst (c5Frame.records.map Record.campus)).length ∧
    (plot_star_totals_by_campus c5Frame).length = 8 ∧
    (uniqueFirst (c5Frame.records.map Record.campus)).length = 1 ∧
    { x := ["day_1"], name := "login" } ∈ plot_star_totals_by_campus c5Frame := by
  decide

/-- C5 (amended): the builder produces one series per non-`day_` column
of its input frame — which coincides with one series per campus only
when the input is a pre-pivoted frame whose columns are campus names —
each series carrying the `day_` column labels as its x values. -/
theorem star_totals_one_series_per_non_day_column (f : Frame) :
    plot_star_totals_by_campus f =
      (f.cols.filter (fun c => !(strStartsWith c "day_"))).map
        (fun campus =>
          { x := f.cols.filter (fun c => strStartsWith c "day_")
            name := campus }) := by
  simp only [plot_star_totals_by_campus]
  have hf : f.cols.filter
        (fun c => !((f.cols.filter (fun c => strStartsWith c "day_")).contains c)) =
      f.cols.filter (fun c => !(strStartsWith c "day_")) := by
    apply List.filter_congr
    intro c hc
    cases hsw : strStartsWith c "day_" with
    | true =>
        have hm : c ∈ f.cols.filter (fun c => strStartsWith c "day_") :=
          List.mem_filter.mpr ⟨hc, hsw⟩
        simp [hm]
    | false =>
        have hm : c ∉ f.cols.filter (fun c => strStartsWith c "day_") := by
          intro hmem
          have h2 := (List.mem_filter.mp hmem).2
          rw [hsw] at h2
          exact Bool.noConfusion h2
        simp [hm]
  rw [hf]

/-- Membership in the model of `df['campus'].unique()`. -/
theorem mem_uniqueFirst {a : String} : ∀ {l : List String}, a ∈ uniqueFirst l ↔ a ∈ l := by
  intro l
  induction l with
  | nil => simp [uniqueFirst]
  | cons x xs ih =>
      by_cases hax : a = x
      · subst hax
        simp [uniqueFirst]
      · simp [uniqueFirst, hax, ih]

/-- If some loop iteration raises, the whole loop raises. -/
theorem forExcept_error {α β ε : Type} (g : α → Except ε β) :
    ∀ (l : List α) (a : α), a ∈ l → (∃ e, g a = .error e) →
      ∃ e, forExcept g l = .error e := by
  intro l
  induction l with
  | nil => intro a ha; exact absurd ha (by simp)
  | cons x xs ih =>
      intro a ha ⟨e, he⟩
      rcases List.mem_cons.mp ha with rfl | hmem
      · exact ⟨e, by simp [forExcept, he]⟩
      · obtain ⟨e2, he2⟩ := ih a hmem ⟨e, he⟩
        cases hx : g x with
        | error e3 => exact ⟨e3, by simp [forExcept, hx]⟩
        | ok b => exact ⟨e2, by simp [forExcept, hx, he2]⟩

/-- C10: a dataset containing a campus outside the four-entry
`CAMPUS_COLORS` table makes the per-group metrics computation raise a
`KeyError` (the `CAMPUS_COLORS[campus]` lookup) instead of returning a
summary, while the radar chart builder handles the very same input by
falling back to the neutral gray `#808080`
(`CAMPUS_COLORS.get(campus, '#808080')`). -/
theorem unknown_campus_metrics_raise_radar_gray (f : Frame) (campus : String)
    (hc : campus ∈ f.records.map Record.campus)
    (hmiss : CAMPUS_COLORS.lookup campus = none) :
    (∃ e, create_metrics_dataframe f false = .error e) ∧
    ∃ t ∈ plot_campus_progress f, t.name = campus ∧ t.lineColor = "#808080" := by
  have hu : campus ∈ uniqueFirst (f.records.map Record.campus) :=
    mem_uniqueFirst.mpr hc
  constructor
  · have hs : campus ∈ sortStrings (uniqueFirst (f.records.map Record.campus)) := by
      unfold sortStrings
      rw [List.mem_insertionSort]
      exact hu
    refine forExcept_error _ _ campus hs ⟨campus, ?_⟩
    rw [hmiss]
  · refine ⟨_, List.mem_map_of_mem _ hu, rfl, ?_⟩
    simp only [hmiss, Option.getD_none]

/-- Witness for C10: a frame whose only record is in campus `PAR`. -/
theorem unknown_campus_metrics_raise_radar_gray_witness :
    "PAR" ∈ c10Frame.records.map Record.campus ∧
    CAMPUS_COLORS.lookup "PAR" = none ∧
    ((∃ e, create_metrics_dataframe c10Frame false = .error e) ∧
     ∃ t ∈ plot_campus_progress c10Frame,
       t.name = "PAR" ∧ t.lineColor = "#808080") :=
  ⟨by decide, by decide,
    unknown_campus_metrics_raise_radar_gray c10Frame "PAR" (by decide) (by decide)⟩

/-! ## Data Loader claims -/

/-- C4: `load_data` never lets an exception escape and always returns a
dataset (possibly empty), whatever the scrape produced, whatever the
backup load produced, and even when the (spec-modelled) `save_data`
raises — and the returned dataset is empty or sorted by points
descending. -/
theorem load_data_total (env : LoadEnv) :
    ∃ r, load_data env = .ok r ∧
      (r.dataset = [] ∨ List.Sorted pointsDesc r.dataset) := by
  unfold load_data loadBody
  cases hdf : (scrape_data env.page).isEmpty with
  | true =>
      cases hb : env.backup with
      | none =>
          exact ⟨{ dataset := [], saved := none, dirAfter := env.dir,
                   msgs := [.noDataError] },
                 by simp [hdf, hb], Or.inl rfl⟩
      | some b =>
          exact ⟨{ dataset := sortValuesPointsDesc b, saved := none,
                   dirAfter := env.dir, msgs := [.staleWarning] },
                 by simp [hdf, hb],
                 Or.inr (List.sorted_insertionSort pointsDesc b)⟩
  | false =>
      cases hs : env.saveName with
      | none =>
          cases hb : env.backup with
          | none =>
              exact ⟨{ dataset := [], saved := none, dirAfter := env.dir,
                       msgs := [] },
                     by simp [hdf, hs, hb], Or.inl rfl⟩
          | some b =>
              exact ⟨{ dataset := sortValuesPointsDesc b, saved := none,
                       dirAfter := env.dir, msgs := [.staleWarning] },
                     by simp [hdf, hs, hb],
                     Or.inr (List.sorted_insertionSort pointsDesc b)⟩
      | some name =>
          exact ⟨{ dataset := sortValuesPointsDesc (scrape_data env.page),
                   saved := some (joinData name),
                   dirAfter := if joinData name = "" then name :: env.dir
                               else clean_old_files (name :: env.dir) (joinData name),
                   msgs := [] },
                 by simp [hdf, hs],
                 Or.inr (List.sorted_insertionSort pointsDesc (scrape_data env.page))⟩

/-- C1: when the Table Scraper returns a non-empty dataset (and the
spec-modelled `save_data` returns a path rather than raising), the
loader saves the dataset as a new snapshot, prunes every other snapshot
file (after the prune, the new snapshot is present and it is the only
file matching the snapshot glob), and returns exactly that dataset
sorted by points descending. -/
theorem load_data_success_path (env : LoadEnv) (name : String)
    (hne : scrape_data env.page ≠ []) (hsave : env.saveName = some name) :
    ∃ r, load_data env = .ok r ∧
      r.saved = some (joinData name) ∧
      r.msgs = [] ∧
      name ∈ r.dirAfter ∧
      (∀ m ∈ r.dirAfter, matchesSnapshotGlob m = true → m = name) ∧
      r.dataset.Perm (scrape_data env.page) ∧
      List.Sorted pointsDesc r.dataset := by
  have hdf : (scrape_data env.page).isEmpty = false := by
    cases hsc : scrape_data env.page with
    | nil => exact absurd hsc hne
    | cons a l => rfl
  have hfp : ¬ (joinData name = "") := by
    intro hj
    have h2 : (joinData name).data = [] := by rw [hj]
    have h3 : ('.' : Char) :: ('/' :: ('d' :: ('a' :: ('t' :: ('a' :: ('/' :: name.data)))))) =
        ([] : List Char) := h2
    exact List.noConfusion h3
  refine ⟨{ dataset := sortValuesPointsDesc (scrape_data env.page)
            saved := some (joinData name)
            dirAfter := clean_old_files (name :: env.dir) (joinData name)
            msgs := [] }, ?_, rfl, rfl, ?_, ?_, ?_, ?_⟩
  · unfold load_data loadBody
    rw [hdf, hsave]
    simp only [Bool.false_eq_true, if_false, if_neg hfp]
  · unfold clean_old_files
    refine List.mem_filter.mpr ⟨List.mem_cons_self _ _, ?_⟩
    simp
  · intro m hm hglob
    unfold clean_old_files at hm
    have h2 := (List.mem_filter.mp hm).2
    rw [hglob] at h2
    simp at h2
    have h3 : (joinData m).data = (joinData name).data := congrArg String.data h2
    have h4 : "./data/".data ++ m.data = "./data/".data ++ name.data := h3
    exact String.ext (List.append_cancel_left h4)
  · exact List.perm_insertionSort pointsDesc (scrape_data env.page)
  · exact List.sorted_insertionSort pointsDesc (scrape_data env.page)

/-- Witness for C1: a page scraping to one record, a successful save,
and a directory holding one stale snapshot plus an unrelated file. -/
theorem load_data_success_path_witness :
    scrape_data c1Env.page ≠ [] ∧
    c1Env.saveName = some "aoc_rankings_20250102030405.csv" ∧
    (∃ r, load_data c1Env = .ok r ∧
      r.saved = some (joinData "aoc_rankings_20250102030405.csv") ∧
      r.msgs = [] ∧
      "aoc_rankings_20250102030405.csv" ∈ r.dirAfter ∧
      (∀ m ∈ r.dirAfter, matchesSnapshotGlob m = true →
        m = "aoc_rankings_20250102030405.csv") ∧
      r.dataset.Perm (scrape_data c1Env.page) ∧
      List.Sorted pointsDesc r.dataset) :=
  ⟨by decide, rfl,
    load_data_success_path c1Env "aoc_rankings_20250102030405.csv" (by decide) rfl⟩

/-! ## Snapshot Store claim -/

/-- Python `max` over a nonempty list returns one of its elements. -/
theorem maxString_mem (x : String) (xs : List String) :
    maxString (x :: xs) ∈ x :: xs := by
  suffices h : ∀ (ys : List String) (a : String),
      ys.foldl (fun a b => if charListLt a.data b.data then b else a) a ∈ a :: ys by
    exact h xs x
  intro ys
  induction ys with
  | nil => intro a; simp
  | cons b bs ih =>
      intro a
      simp only [List.foldl_cons]
      by_cases hc : charListLt a.data b.data = true
      · rw [if_pos hc]
        exact List.mem_cons_of_mem a (ih b)
      · rw [if_neg hc]
        rcases List.mem_cons.mp (ih a) with h | h
        · rw [h]; exact List.mem_cons_self a _
        · exact List.mem_cons_of_mem a (List.mem_cons_of_mem b h)

/-- Splitting a list that does not contain the separator yields one part. -/
theorem splitCharAux_no_sep (sep : Char) :
    ∀ (l acc : List Char), sep ∉ l → splitCharAux sep l acc = [acc.reverse ++ l] := by
  intro l
  induction l with
  | nil => intro acc _; simp [splitCharAux]
  | cons c rest ih =>
      intro acc h
      have hc : ¬ (c = sep) := by
        intro he
        exact h (he ▸ List.mem_cons_self c rest)
      simp only [splitCharAux, if_neg hc]
      rw [ih (c :: acc) (fun hm => h (List.mem_cons_of_mem c hm))]
      simp

/-- `os.path.basename('./data/' + n)` recovers `n` for slash-free `n`. -/
theorem basename_joinData (n : String) (h : ('/' : Char) ∉ n.data) :
    basename (joinData n) = n := by
  have h1 : splitCharAux '/' (joinData n).data [] =
      ['.'] :: (['d', 'a', 't', 'a'] :: splitCharAux '/' n.data []) := rfl
  have h2 : splitCharAux '/' n.data [] = [n.data] := by
    rw [splitCharAux_no_sep '/' n.data [] h]
    simp
  unfold basename splitChar
  rw [h1, h2]
  rfl

/-- The basename of every globbed snapshot file starts with the twelve
characters `aoc_rankings` followed by `_`, so `split('_')[1]` is the
literal text `rankings`, and `strptime('rankings', '%Y%m%d%H%M%S')`
fails — whatever the rest of the filename is. -/
theorem timestampFromName_rankings (t : List Char) :
    timestampFromName ⟨"aoc_rankings_".data ++ t⟩ = none := rfl

/-- C2 (code bug evaluation): for every `./data` directory (with
slash-free filenames, as every real directory listing is),
`get_latest_csv` returns `('', None)` — even when well-formed,
deserializable snapshot files are present — because
`os.path.basename(latest_file).split('_')[1]` extracts the literal
`rankings` instead of the timestamp, `strptime` raises, and the
handler collapses to `('', None)`; consequently `load_backup_data`
always returns `None` and the snapshot fallback never succeeds. -/
theorem get_latest_csv_always_fails (d : DataDir)
    (h : ∀ n ∈ d.entries.map Prod.fst, ('/' : Char) ∉ n.data) :
    get_latest_csv d = ("", none) ∧ load_backup_data d = none := by
  have hmain : get_latest_csv d = ("", none) := by
    unfold get_latest_csv
    cases hcsv : (globSnapshots d).isEmpty with
    | true => rfl
    | false =>
        rw [if_neg Bool.false_ne_true]
        suffices hts : timestampFromName (basename (maxString (globSnapshots d))) = none by
          rw [hts]
        obtain ⟨x, xs, hx⟩ : ∃ x xs, globSnapshots d = x :: xs := by
          cases hg : globSnapshots d with
          | nil => rw [hg] at hcsv; exact absurd hcsv (by simp)
          | cons x xs => exact ⟨x, xs, rfl⟩
        have hmem : maxString (globSnapshots d) ∈ globSnapshots d := by
          rw [hx]
          exact maxString_mem x xs
        have hmem2 : maxString (globSnapshots d) ∈
            ((d.entries.map Prod.fst).filter matchesSnapshotGlob).map joinData := hmem
        obtain ⟨n, hn, hjoin⟩ := List.mem_map.mp hmem2
        have hnmem : n ∈ d.entries.map Prod.fst := (List.mem_filter.mp hn).1
        have hglob : matchesSnapshotGlob n = true := (List.mem_filter.mp hn).2
        have hnoslash := h n hnmem
        have hpre : "aoc_rankings_".data.isPrefixOf n.data = true := by
          unfold matchesSnapshotGlob strStartsWith at hglob
          exact (Bool.and_eq_true _ _ |>.mp hglob).1
        obtain ⟨t, ht⟩ : ∃ t, "aoc_rankings_".data ++ t = n.data :=
          List.isPrefixOf_iff_prefix.mp hpre
        rw [← hjoin, basename_joinData n hnoslash]
        have hn2 : n = ⟨"aoc_rankings_".data ++ t⟩ := String.ext ht.symm
        rw [hn2]
        exact timestampFromName_rankings t
  refine ⟨hmain, ?_⟩
  unfold load_backup_data
  rw [hmain]
  rfl

/-- Witness for C2: a directory holding exactly one well-formed
snapshot, `aoc_rankings_20241201120000.csv`, whose contents deserialize
fine — the claimed behavior would return that dataset with timestamp
2024-12-01 12:00:00, yet the code returns `('', None)` / `None`. -/
theorem get_latest_csv_always_fails_witness :
    (∀ n ∈ c2Dir.entries.map Prod.fst, ('/' : Char) ∉ n.data) ∧
    (get_latest_csv c2Dir = ("", none) ∧ load_backup_data c2Dir = none) :=
  ⟨by decide, get_latest_csv_always_fails c2Dir (by decide)⟩
